import Mathlib

/-!
Shallow embedding of `roles_lambda_function.py`: a change-event replication
lambda that mirrors MongoDB role documents into a Redshift table
(`documentdb.roles`) and an Oracle table (`CFG_ROLE`).

JSON-like Python values are modelled by `Val`; Python dicts are association
lists preserving insertion order.  Database effects are modelled by explicit
table states together with a trace of the SQL statements issued through each
cursor, and `print` diagnostics are modelled as a list of log lines.
-/

namespace RolesLambda

/-- JSON-like Python value (the payloads handled by the lambda). -/
inductive Val where
  | vNull : Val
  | vBool : Bool → Val
  | vInt : Int → Val
  | vStr : String → Val
  | vArr : List Val → Val
  | vObj : List (String × Val) → Val

/-- A Python dict with string keys, in insertion order. -/
abbrev Obj := List (String × Val)

/-- Python truthiness for the modelled values. -/
def truthy : Val → Bool
  | .vNull => false
  | .vBool b => b
  | .vInt i => i != 0
  | .vStr s => s != ""
  | .vArr xs => !xs.isEmpty
  | .vObj fs => !fs.isEmpty

/-- Dict lookup; first binding wins (Python dicts have unique keys). -/
def lookupObj (fs : Obj) (k : String) : Option Val :=
  match fs with
  | [] => none
  | (k2, v) :: rest => if k2 == k then some v else lookupObj rest k

def digitCh (d : Nat) : Char := Char.ofNat (48 + d)

def natDigits : Nat → Nat → List Char
  | 0, _ => []
  | fuel + 1, n =>
    if n < 10 then [digitCh n] else natDigits fuel (n / 10) ++ [digitCh (n % 10)]

/-- Decimal representation of a natural number, as Python prints it.  The
fuel `n + 1` strictly exceeds the number of digits of `n`. -/
def natRepr (n : Nat) : String := String.mk (natDigits (n + 1) n)

/-- Python `str` of an integer. -/
def intRepr : Int → String
  | .ofNat m => natRepr m
  | .negSucc m => "-" ++ natRepr (m + 1)

def squote : Char := Char.ofNat 39

def dquote : Char := Char.ofNat 34

def bslash : Char := Char.ofNat 92

/-- Escape one character inside a Python string repr (common escapes only;
hex escapes for other non-printable characters are not modelled). -/
def pyEscChar (q c : Char) : String :=
  if c = bslash then String.mk [bslash, bslash]
  else if c = q then String.mk [bslash, q]
  else if c = '\n' then String.mk [bslash, 'n']
  else if c = '\r' then String.mk [bslash, 'r']
  else if c = '\t' then String.mk [bslash, 't']
  else String.singleton c

/-- Python repr of a string: single-quoted unless the string contains a
single quote and no double quote. -/
def pyStrRepr (s : String) : String :=
  let q := if s.contains squote && !(s.contains dquote) then dquote else squote
  String.singleton q ++ String.join (s.data.map (pyEscChar q)) ++ String.singleton q

mutual

/-- Python `repr` of a value (used by `str` on containers). -/
def pyRepr : Val → String
  | .vNull => "None"
  | .vBool true => "True"
  | .vBool false => "False"
  | .vInt i => intRepr i
  | .vStr s => pyStrRepr s
  | .vArr xs => "[" ++ pyReprList xs ++ "]"
  | .vObj fs => "\x7b" ++ pyReprFields fs ++ "\x7d"

def pyReprList : List Val → String
  | [] => ""
  | [x] => pyRepr x
  | x :: y :: rest => pyRepr x ++ ", " ++ pyReprList (y :: rest)

def pyReprFields : List (String × Val) → String
  | [] => ""
  | [(k, v)] => pyStrRepr k ++ ": " ++ pyRepr v
  | (k, v) :: f :: rest => pyStrRepr k ++ ": " ++ pyRepr v ++ ", " ++ pyReprFields (f :: rest)

end

/-- Python `str` (as used by `str(_id_raw)` and f-string logging):
identity on strings, `repr` on everything else. -/
def pyStr (v : Val) : String :=
  match v with
  | .vStr s => s
  | .vNull => "None"
  | .vBool true => "True"
  | .vBool false => "False"
  | .vInt i => intRepr i
  | .vArr xs => pyRepr (.vArr xs)
  | .vObj fs => pyRepr (.vObj fs)

/-- Escape one character for `json.dumps` output (common escapes only;
`\uXXXX` escaping of other control and non-ASCII characters is not
modelled). -/
def jsonEscChar (c : Char) : String :=
  if c = dquote then String.mk [bslash, dquote]
  else if c = bslash then String.mk [bslash, bslash]
  else if c = '\n' then String.mk [bslash, 'n']
  else if c = '\r' then String.mk [bslash, 'r']
  else if c = '\t' then String.mk [bslash, 't']
  else String.singleton c

def jsonQuote (s : String) : String :=
  String.singleton dquote ++ String.join (s.data.map jsonEscChar) ++ String.singleton dquote

mutual

/-- `json.dumps` with its default separators. -/
def jsonDumps : Val → String
  | .vNull => "null"
  | .vBool true => "true"
  | .vBool false => "false"
  | .vInt i => intRepr i
  | .vStr s => jsonQuote s
  | .vArr xs => "[" ++ jsonDumpsList xs ++ "]"
  | .vObj fs => "\x7b" ++ jsonDumpsFields fs ++ "\x7d"

def jsonDumpsList : List Val → String
  | [] => ""
  | [x] => jsonDumps x
  | x :: y :: rest => jsonDumps x ++ ", " ++ jsonDumpsList (y :: rest)

def jsonDumpsFields : List (String × Val) → String
  | [] => ""
  | [(k, v)] => jsonQuote k ++ ": " ++ jsonDumps v
  | (k, v) :: f :: rest => jsonQuote k ++ ": " ++ jsonDumps v ++ ", " ++ jsonDumpsFields (f :: rest)

end

mutual

/-- Structural value equality; models SQL parameter equality on row keys. -/
def valBeq : Val → Val → Bool
  | .vNull, .vNull => true
  | .vBool x, .vBool y => x == y
  | .vInt x, .vInt y => x == y
  | .vStr x, .vStr y => x == y
  | .vArr xs, .vArr ys => valListBeq xs ys
  | .vObj fs, .vObj gs => valFieldsBeq fs gs
  | _, _ => false

def valListBeq : List Val → List Val → Bool
  | [], [] => true
  | x :: xs, y :: ys => valBeq x y && valListBeq xs ys
  | _, _ => false

def valFieldsBeq : List (String × Val) → List (String × Val) → Bool
  | [], [] => true
  | (k, v) :: fs, (l, w) :: gs => k == l && valBeq v w && valFieldsBeq fs gs
  | _, _ => false

end

/-- `extract_id`: unwrap a MongoDB extended-JSON `_id` whose value is a dict
containing `$oid`; otherwise stringify a truthy identifier; otherwise
`None`. -/
def extract_id (doc : Obj) : Option Val :=
  let raw := (lookupObj doc "_id").getD Val.vNull
  match raw with
  | Val.vObj fields =>
    match lookupObj fields "$oid" with
    | some v => some v
    | none =>
        if truthy (Val.vObj fields) then some (Val.vStr (pyStr (Val.vObj fields))) else none
  | _ => if truthy raw then some (Val.vStr (pyStr raw)) else none

/-- A row of the Redshift table `documentdb.roles`. -/
structure RSRow where
  id : Val
  data : String
  lastUpdateDate : Val

/-- The Redshift table state. -/
structure RSState where
  rows : List RSRow

/-- SQL statements issued through the Redshift cursor, with their bound
parameters in binding order. -/
inductive RSOp where
  | update : (data : String) → (lastUpdateDate : Val) → (id : Val) → RSOp
  | insert : (id : Val) → (data : String) → (lastUpdateDate : Val) → RSOp

/-- Result of a Redshift sink call: new table state, statement trace, log. -/
structure RsResult where
  state : RSState
  ops : List RSOp
  log : List String

/-- `insert_redshift_role`: skip (with a warning) when the extracted id is
falsy, else INSERT a `(id, data, last_update_date)` row. -/
def insert_redshift_role (st : RSState) (role : Obj) : RsResult :=
  match extract_id role with
  | none => ⟨st, [], ["Missing _id for insert."]⟩
  | some id =>
    if truthy id then
      let data := jsonDumps (Val.vObj role)
      let lud := (lookupObj role "last_update_date").getD Val.vNull
      ⟨⟨st.rows ++ [⟨id, data, lud⟩]⟩, [RSOp.insert id data lud],
        ["Inserted Redshift role " ++ pyStr id]⟩
    else ⟨st, [], ["Missing _id for insert."]⟩

/-- Rows matched by `WHERE id = %s`. -/
def rsMatchCount (st : RSState) (id : Val) : Nat :=
  (st.rows.filter (fun r => valBeq r.id id)).length

/-- `update_redshift_role`: UPDATE by id; if the UPDATE matched zero rows,
fall back to `insert_redshift_role`. -/
def update_redshift_role (st : RSState) (role : Obj) : RsResult :=
  match extract_id role with
  | none => ⟨st, [], ["Missing _id for update."]⟩
  | some id =>
    if truthy id then
      let data := jsonDumps (Val.vObj role)
      let lud := (lookupObj role "last_update_date").getD Val.vNull
      let updated : RSState :=
        ⟨st.rows.map (fun r => if valBeq r.id id then ⟨r.id, data, lud⟩ else r)⟩
      if rsMatchCount st id = 0 then
        let ins := insert_redshift_role updated role
        ⟨ins.state, RSOp.update data lud id :: ins.ops, ins.log⟩
      else
        ⟨updated, [RSOp.update data lud id], ["Updated Redshift role " ++ pyStr id]⟩
    else ⟨st, [], ["Missing _id for update."]⟩

/-- A row of the Oracle table `CFG_ROLE`. -/
structure OracleRow where
  roleId : Val
  roleName : Val
  roleDescription : Val
  roleStatus : Val
  tag : Val
  category : Val
  tooltip : Val
  modifiedBy : Val
  modifiedDateTime : Val

/-- The Oracle table state. -/
structure OrState where
  rows : List OracleRow

/-- The bound parameters of the `MERGE INTO CFG_ROLE` statement. -/
structure MergeParams where
  role_id : Val
  role_name : Val
  role_description : Val
  role_status : Val
  tag : Val
  category : Val
  tooltip : Val
  creator_id : Val
  create_date : Val
  last_updater_id : Val
  last_update_date : Val

/-- SQL statements issued through the Oracle cursor. -/
inductive OrOp where
  | merge : MergeParams → OrOp
  | delete : (roleId : Val) → OrOp

/-- Result of an Oracle sink call: new table state, statement trace, log. -/
structure OrResult where
  state : OrState
  ops : List OrOp
  log : List String

/-- The `params` dict built by `update_oracle_role` for the MERGE statement
(`role.get(k)` defaults to `None`; the two attribution parameters are the
hardcoded constant). -/
def mergeParamsOf (role : Obj) : MergeParams :=
  { role_id := (lookupObj role "role_id").getD Val.vNull
    role_name := (lookupObj role "role_name").getD Val.vNull
    role_description := (lookupObj role "role_description").getD Val.vNull
    role_status := (lookupObj role "role_status").getD Val.vNull
    tag := (lookupObj role "tag").getD Val.vNull
    category := (lookupObj role "category").getD Val.vNull
    tooltip := (lookupObj role "tooltip").getD Val.vNull
    creator_id := Val.vStr "americold_compass"
    create_date := (lookupObj role "create_date").getD Val.vNull
    last_updater_id := Val.vStr "americold_compass"
    last_update_date := (lookupObj role "last_update_date").getD Val.vNull }

/-- Semantics of the `MERGE INTO CFG_ROLE` statement: when a row matches on
`ROLEID`, update the mapped columns (with `MODIFIEDBY := :last_updater_id`,
`MODIFIEDDATETIME := :last_update_date`); otherwise insert a new row (with
`MODIFIEDBY := :creator_id`, `MODIFIEDDATETIME := :create_date`). -/
def orMerge (st : OrState) (p : MergeParams) : OrState :=
  if st.rows.any (fun r => valBeq r.roleId p.role_id) then
    ⟨st.rows.map (fun r =>
      if valBeq r.roleId p.role_id then
        ⟨r.roleId, p.role_name, p.role_description, p.role_status, p.tag, p.category,
          p.tooltip, p.last_updater_id, p.last_update_date⟩
      else r)⟩
  else
    ⟨st.rows ++ [⟨p.role_id, p.role_name, p.role_description, p.role_status, p.tag,
      p.category, p.tooltip, p.creator_id, p.create_date⟩]⟩

/-- `update_oracle_role`: skip (with a warning) when `role_id` is falsy;
MERGE for non-delete kinds with a falsy `is_deleted`; hard DELETE for the
delete kind or a truthy `is_deleted`; otherwise do nothing. -/
def update_oracle_role (st : OrState) (role : Obj) (operation_type : String) : OrResult :=
  let role_id := (lookupObj role "role_id").getD Val.vNull
  if truthy role_id then
    let is_deleted := (lookupObj role "is_deleted").getD (Val.vBool false)
    if (operation_type == "insert" || operation_type == "update"
          || operation_type == "replace") && !truthy is_deleted then
      let p := mergeParamsOf role
      ⟨orMerge st p, [OrOp.merge p], ["Oracle role " ++ pyStr role_id ++ " merged."]⟩
    else if operation_type == "delete" || truthy is_deleted then
      ⟨⟨st.rows.filter (fun r => !valBeq r.roleId role_id)⟩, [OrOp.delete role_id],
        ["Oracle role " ++ pyStr role_id ++ " deleted."]⟩
    else ⟨st, [], []⟩
  else ⟨st, [], ["Missing role_id for Oracle operation."]⟩

/-- Read a value as a Python dict.  A non-mapping value in one of the
wrapper positions would raise `AttributeError` in the source; such inputs
are outside the modelled input space. -/
def asObj : Val → Obj
  | Val.vObj fs => fs
  | _ => []

/-- `record.get('event', {})`. -/
def recEventData (record : Obj) : Obj :=
  asObj ((lookupObj record "event").getD (Val.vObj []))

/-- `event_data.get('operationType')`. -/
def recOpType (record : Obj) : Val :=
  (lookupObj (recEventData record) "operationType").getD Val.vNull

/-- `event_data.get('fullDocument', {})`. -/
def recFullDoc (record : Obj) : Obj :=
  asObj ((lookupObj (recEventData record) "fullDocument").getD (Val.vObj []))

/-- `event_data.get('documentKey', {})`. -/
def recDocKey (record : Obj) : Obj :=
  asObj ((lookupObj (recEventData record) "documentKey").getD (Val.vObj []))

/-- Python `x == "s"` for an arbitrary value `x`. -/
def isStrVal (v : Val) (s : String) : Bool :=
  match v with
  | .vStr t => t == s
  | _ => false

/-- Combined result of routing one event through both sinks. -/
structure StepResult where
  rs : RSState
  ora : OrState
  rsOps : List RSOp
  orOps : List OrOp
  log : List String

/-- `process_event`: route one change-event record to the two sinks
according to its `operationType`. -/
def process_event (record : Obj) (rs : RSState) (ora : OrState) : StepResult :=
  let op := recOpType record
  let full_document := recFullDoc record
  let document_key := recDocKey record
  if isStrVal op "insert" then
    let r := insert_redshift_role rs full_document
    let o := update_oracle_role ora full_document "insert"
    ⟨r.state, o.state, r.ops, o.ops, r.log ++ o.log⟩
  else if isStrVal op "update" || isStrVal op "replace" then
    let opStr := if isStrVal op "update" then "update" else "replace"
    let r := update_redshift_role rs full_document
    let o := update_oracle_role ora full_document opStr
    ⟨r.state, o.state, r.ops, o.ops, r.log ++ o.log⟩
  else if isStrVal op "delete" then
    let o := update_oracle_role ora document_key "delete"
    ⟨rs, o.state, [], o.ops, o.log⟩
  else
    ⟨rs, ora, [], [], ["Unsupported operation: " ++ pyStr op]⟩

/-- Process a batch of records in arrival order, accumulating both table
states, both statement traces and the log. -/
def runEvents : List Obj → RSState → OrState → StepResult
  | [], rs, ora => ⟨rs, ora, [], [], []⟩
  | rec :: rest, rs, ora =>
    let s := process_event rec rs ora
    let t := runEvents rest s.rs s.ora
    ⟨t.rs, t.ora, s.rsOps ++ t.rsOps, s.orOps ++ t.orOps, s.log ++ t.log⟩

/-- Outcomes of the external collaborators during one invocation.
Secret retrieval failure makes `get_secret` return `None` (its exception is
caught internally); a falsy flag on a connect makes that `connect` raise.
`failAfter = some k` injects an unrecovered exception that escapes the
event-processing loop after `k` records have been processed (for example a
SQL error raised by a `cursor.execute`); falsy commit flags make the
corresponding `conn.commit()` raise. -/
structure Env where
  rsSecretOk : Bool
  rsConnectOk : Bool
  orSecretOk : Bool
  orConnectOk : Bool
  failAfter : Option Nat
  rsCommitOk : Bool
  orCommitOk : Bool

/-- Observable outcome of one `lambda_handler` invocation.  `ret = none`
means an exception propagated to the caller.  `rsFinal`/`orFinal` are the
durable table states (in-transaction work that was rolled back is not
visible).  The resource flags record which connections/cursors were opened
and which were closed by the `finally` block. -/
structure HandlerResult where
  ret : Option String := none
  rsFinal : RSState
  orFinal : OrState
  rsOps : List RSOp := []
  orOps : List OrOp := []
  log : List String := []
  rsConnOpened : Bool := false
  rsCursorOpened : Bool := false
  orConnOpened : Bool := false
  orCursorOpened : Bool := false
  rsCursorClosed : Bool := false
  rsConnClosed : Bool := false
  orCursorClosed : Bool := false
  orConnClosed : Bool := false
  rsCommitted : Bool := false
  orCommitted : Bool := false
  rsRolledBack : Bool := false
  orRolledBack : Bool := false

/-- `lambda_handler`: fetch both secrets, open the Redshift connection and
cursor, open the Oracle connection and cursor, then inside try/except/
finally process the batch, commit both stores (rolling both back if an
exception was caught), close everything, and return the literal `'OK'`.
`events = none` models an input batch object without an `'events'` key
(`event.get('events', [])` then yields the empty list). -/
def lambda_handler (env : Env) (events : Option (List Obj)) (rs0 : RSState)
    (or0 : OrState) : HandlerResult :=
  if !env.rsSecretOk then
    -- `redshift_secret` is None: subscripting it raises before any connection
    { rsFinal := rs0, orFinal := or0 }
  else if !env.rsConnectOk then
    -- `psycopg2.connect` raises; nothing was opened
    { rsFinal := rs0, orFinal := or0 }
  else if !env.orSecretOk then
    -- `oracle_secret` is None: subscripting it raises; the Redshift
    -- connection and cursor are open and nothing closes them
    { rsFinal := rs0, orFinal := or0, rsConnOpened := true, rsCursorOpened := true }
  else if !env.orConnectOk then
    -- `oracledb.connect` raises; same leak of the Redshift connection
    { rsFinal := rs0, orFinal := or0, rsConnOpened := true, rsCursorOpened := true }
  else
    let evs := (events.getD [])
    let k := match env.failAfter with
      | none => evs.length
      | some j => min j evs.length
    let r := runEvents (evs.take k) rs0 or0
    match env.failAfter with
    | some _ =>
      -- the exception escaping the loop is caught: roll back both, close
      -- everything, and still fall through to `return 'OK'`
      { ret := some "OK", rsFinal := rs0, orFinal := or0, rsOps := r.rsOps,
        orOps := r.orOps, log := r.log,
        rsConnOpened := true, rsCursorOpened := true, orConnOpened := true,
        orCursorOpened := true, rsCursorClosed := true, rsConnClosed := true,
        orCursorClosed := true, orConnClosed := true,
        rsRolledBack := true, orRolledBack := true }
    | none =>
      if !env.rsCommitOk then
        -- redshift commit raises: caught, both rolled back, 'OK' returned
        { ret := some "OK", rsFinal := rs0, orFinal := or0, rsOps := r.rsOps,
          orOps := r.orOps, log := r.log,
          rsConnOpened := true, rsCursorOpened := true, orConnOpened := true,
          orCursorOpened := true, rsCursorClosed := true, rsConnClosed := true,
          orCursorClosed := true, orConnClosed := true,
          rsRolledBack := true, orRolledBack := true }
      else if !env.orCommitOk then
        -- oracle commit raises after the redshift commit succeeded: caught,
        -- both rollback calls issued (the redshift one is a no-op on a
        -- freshly committed transaction), 'OK' returned
        { ret := some "OK", rsFinal := r.rs, orFinal := or0, rsOps := r.rsOps,
          orOps := r.orOps, log := r.log,
          rsConnOpened := true, rsCursorOpened := true, orConnOpened := true,
          orCursorOpened := true, rsCursorClosed := true, rsConnClosed := true,
          orCursorClosed := true, orConnClosed := true,
          rsCommitted := true, rsRolledBack := true, orRolledBack := true }
      else
        { ret := some "OK", rsFinal := r.rs, orFinal := r.ora, rsOps := r.rsOps,
          orOps := r.orOps, log := r.log,
          rsConnOpened := true, rsCursorOpened := true, orConnOpened := true,
          orCursorOpened := true, rsCursorClosed := true, rsConnClosed := true,
          orCursorClosed := true, orConnClosed := true,
          rsCommitted := true, orCommitted := true }

/-! ### Helper definitions used by the claims -/

def rsEmpty : RSState := ⟨[]⟩

def orEmpty : OrState := ⟨[]⟩

def isInsertOp : RSOp → Bool
  | .insert _ _ _ => true
  | .update _ _ _ => false

def isUpdateOp : RSOp → Bool
  | .insert _ _ _ => false
  | .update _ _ _ => true

/-- Python `if not id` on the result of `extract_id`. -/
def idTruthy : Option Val → Bool
  | none => false
  | some v => truthy v

/-- `role.get('role_id')` as a value (`None` when missing). -/
def roleIdOf (doc : Obj) : Val := (lookupObj doc "role_id").getD Val.vNull

/-- Whether an `_id` value is the wrapped-object form (a dict containing
`$oid`). -/
def isWrapped : Val → Bool
  | .vObj fs => (lookupObj fs "$oid").isSome
  | _ => false

/-- Serialized `data` payload of an event's full document. -/
def docData (record : Obj) : String := jsonDumps (Val.vObj (recFullDoc record))

/-- `last_update_date` of an event's full document (`None` when missing). -/
def docLud (record : Obj) : Val :=
  (lookupObj (recFullDoc record) "last_update_date").getD Val.vNull

/-- An event on which every routed sink skips: an unrecognized operation
kind, a non-delete event whose document yields neither a truthy canonical id
nor a truthy `role_id`, or a delete event whose key has no truthy
`role_id`. -/
def badEvent (record : Obj) : Bool :=
  let op := recOpType record
  if isStrVal op "insert" || isStrVal op "update" || isStrVal op "replace" then
    !idTruthy (extract_id (recFullDoc record)) && !truthy (roleIdOf (recFullDoc record))
  else if isStrVal op "delete" then
    !truthy (roleIdOf (recDocKey record))
  else true

/-- All external collaborators behave: secrets retrieved, both connections
open, no exception escapes processing, both commits succeed. -/
def healthyEnv (env : Env) : Prop :=
  env.rsSecretOk = true ∧ env.rsConnectOk = true ∧ env.orSecretOk = true ∧
    env.orConnectOk = true ∧ env.failAfter = none ∧ env.rsCommitOk = true ∧
    env.orCommitOk = true

/-! ### Concrete sample inputs (mirroring the repository's test fixtures) -/

/-- Abridged `sample_doc` of the test suite. -/
def docX : Obj :=
  [("_id", Val.vObj [("$oid", Val.vStr "X")]),
   ("role_id", Val.vStr "admin"),
   ("role_name", Val.vStr "Administrator")]

def sampleInsertRecord : Obj :=
  [("event", Val.vObj [("operationType", Val.vStr "insert"),
    ("fullDocument", Val.vObj docX),
    ("documentKey", Val.vObj [("role_id", Val.vStr "admin")])])]

def sampleUpdateRecord : Obj :=
  [("event", Val.vObj [("operationType", Val.vStr "update"),
    ("fullDocument", Val.vObj docX),
    ("documentKey", Val.vObj [("role_id", Val.vStr "admin")])])]

def sampleDeleteRecord : Obj :=
  [("event", Val.vObj [("operationType", Val.vStr "delete"),
    ("documentKey", Val.vObj [("role_id", Val.vStr "admin")])])]

/-- An insert event whose document has a truthy `role_id` but no `_id`. -/
def missingIdRecord : Obj :=
  [("event", Val.vObj [("operationType", Val.vStr "insert"),
    ("fullDocument", Val.vObj [("role_id", Val.vStr "admin"),
      ("role_name", Val.vStr "Administrator")])])]

/-- An event with an unrecognized operation kind. -/
def unsupportedRecord : Obj :=
  [("event", Val.vObj [("operationType", Val.vStr "unknown"),
    ("fullDocument", Val.vObj docX),
    ("documentKey", Val.vObj [("role_id", Val.vStr "admin")])])]

/-- A `CFG_ROLE` row keyed `admin` with all other columns NULL. -/
def adminRow : OracleRow :=
  ⟨Val.vStr "admin", Val.vNull, Val.vNull, Val.vNull, Val.vNull, Val.vNull, Val.vNull,
    Val.vNull, Val.vNull⟩

/-- A config store holding exactly the `admin` row. -/
def orAdminOnly : OrState := ⟨[adminRow]⟩

def envHealthy : Env := ⟨true, true, true, true, none, true, true⟩

/-- Healthy connections, but an unrecovered exception escapes the event
loop before any record is processed. -/
def envFailProcessing : Env := ⟨true, true, true, true, some 0, true, true⟩

/-- The Oracle `connect` call raises (e.g. unreachable host). -/
def envOracleConnectFails : Env := ⟨true, true, true, false, none, true, true⟩

/-! ### Skip lemmas for the per-event error handling -/

lemma insert_redshift_skip (st : RSState) (role : Obj)
    (h : idTruthy (extract_id role) = false) :
    insert_redshift_role st role = ⟨st, [], ["Missing _id for insert."]⟩ := by
  cases hx : extract_id role with
  | none => simp [insert_redshift_role, hx]
  | some v =>
      have hv : truthy v = false := by simpa [idTruthy, hx] using h
      simp [insert_redshift_role, hx, hv]

lemma update_redshift_skip (st : RSState) (role : Obj)
    (h : idTruthy (extract_id role) = false) :
    update_redshift_role st role = ⟨st, [], ["Missing _id for update."]⟩ := by
  cases hx : extract_id role with
  | none => simp [update_redshift_role, hx]
  | some v =>
      have hv : truthy v = false := by simpa [idTruthy, hx] using h
      simp [update_redshift_role, hx, hv]

lemma update_oracle_skip (st : OrState) (role : Obj) (op : String)
    (h : truthy (roleIdOf role) = false) :
    update_oracle_role st role op = ⟨st, [], ["Missing role_id for Oracle operation."]⟩ := by
  have h2 : truthy ((lookupObj role "role_id").getD Val.vNull) = false := h
  simp [update_oracle_role, h2]

/-- A bad event mutates neither store, issues no SQL statement, and leaves
at least one warning in the log. -/
lemma badEvent_step (record : Obj) (rs : RSState) (ora : OrState)
    (h : badEvent record = true) :
    (process_event record rs ora).rs = rs ∧ (process_event record rs ora).ora = ora ∧
    (process_event record rs ora).rsOps = [] ∧ (process_event record rs ora).orOps = [] ∧
    (process_event record rs ora).log ≠ [] := by
  unfold badEvent at h
  unfold process_event
  by_cases h1 : isStrVal (recOpType record) "insert"
  · simp only [h1, Bool.true_or, if_true, Bool.and_eq_true, Bool.not_eq_true'] at h
    obtain ⟨ha, hb⟩ := h
    simp only [h1, if_true]
    rw [insert_redshift_skip rs _ ha, update_oracle_skip ora _ _ hb]
    simp
  · by_cases h2 : isStrVal (recOpType record) "update" || isStrVal (recOpType record) "replace"
    · have h2a : (isStrVal (recOpType record) "insert" || isStrVal (recOpType record) "update"
          || isStrVal (recOpType record) "replace") = true := by
        rcases Bool.or_eq_true_iff.mp h2 with hu | hr
        · simp [hu]
        · simp [hr]
      rw [if_pos h2a, Bool.and_eq_true, Bool.not_eq_true', Bool.not_eq_true'] at h
      obtain ⟨ha, hb⟩ := h
      simp only [h1, Bool.false_eq_true, if_false, h2, if_true]
      rw [update_redshift_skip rs _ ha, update_oracle_skip ora _ _ hb]
      simp
    · by_cases h3 : isStrVal (recOpType record) "delete"
      · have h2f : (isStrVal (recOpType record) "update"
            || isStrVal (recOpType record) "replace") = false := Bool.eq_false_iff.mpr h2
        obtain ⟨hu, hr⟩ := Bool.or_eq_false_iff.mp h2f
        have h1f : isStrVal (recOpType record) "insert" = false := Bool.eq_false_iff.mpr h1
        have hcond : (isStrVal (recOpType record) "insert"
            || isStrVal (recOpType record) "update"
            || isStrVal (recOpType record) "replace") = false := by
          simp [h1f, hu, hr]
        rw [if_neg (by simp [hcond]), if_pos (by simp [h3]), Bool.not_eq_true'] at h
        simp only [h1, Bool.false_eq_true, if_false, h2, h3, if_true]
        rw [update_oracle_skip ora _ _ h]
        simp
      · simp only [h1, Bool.false_eq_true, if_false, h2, h3, if_true]
        simp

/-- Dropping the bad events from a batch does not change the final table
states. -/
lemma runEvents_filter_bad (evs : List Obj) (rs : RSState) (ora : OrState) :
    (runEvents (evs.filter (fun e => !badEvent e)) rs ora).rs = (runEvents evs rs ora).rs ∧
    (runEvents (evs.filter (fun e => !badEvent e)) rs ora).ora = (runEvents evs rs ora).ora := by
  induction evs generalizing rs ora with
  | nil => exact ⟨rfl, rfl⟩
  | cons e rest ih =>
    by_cases hb : badEvent e = true
    · have hs := badEvent_step e rs ora hb
      simp only [List.filter_cons, hb, Bool.not_true, if_false, runEvents]
      rw [hs.1, hs.2.1]
      exact ih rs ora
    · have hb2 : badEvent e = false := Bool.eq_false_iff.mpr hb
      simp only [List.filter_cons, hb2, Bool.not_false, if_true, runEvents]
      exact ih _ _

/-! ### Non-emptiness of Python string representations -/

lemma ne_empty_of_data_ne_nil (s : String) (h : s.data ≠ []) : s ≠ "" := by
  intro he
  apply h
  rw [he]

lemma natDigits_ne_nil (fuel n : Nat) : natDigits (fuel + 1) n ≠ [] := by
  unfold natDigits
  by_cases h : n < 10 <;> simp [h]

lemma natRepr_ne_empty (n : Nat) : natRepr n ≠ "" :=
  ne_empty_of_data_ne_nil _ (natDigits_ne_nil n n)

lemma append_right_ne_empty (s t : String) (ht : t.data ≠ []) : s ++ t ≠ "" := by
  apply ne_empty_of_data_ne_nil
  rw [String.data_append]
  simp [ht]

lemma intRepr_ne_empty (i : Int) : intRepr i ≠ "" := by
  cases i with
  | ofNat m => exact natRepr_ne_empty m
  | negSucc m =>
      unfold intRepr
      exact append_right_ne_empty _ _ (fun hd =>
        natDigits_ne_nil (m + 1) (m + 1) (by simpa [natRepr] using hd))

/-- `str` of a truthy Python value is never the empty string. -/
lemma pyStr_ne_empty (v : Val) (h : truthy v = true) : pyStr v ≠ "" := by
  cases v with
  | vNull => simp [truthy] at h
  | vBool b =>
      cases b with
      | true => simp [pyStr]
      | false => simp [truthy] at h
  | vInt i => exact intRepr_ne_empty i
  | vStr s =>
      have : s ≠ "" := by simpa [truthy] using h
      simpa [pyStr] using this
  | vArr xs =>
      show pyRepr (Val.vArr xs) ≠ ""
      rw [pyRepr]
      exact append_right_ne_empty _ _ (by simp)
  | vObj fs =>
      show pyRepr (Val.vObj fs) ≠ ""
      rw [pyRepr]
      exact append_right_ne_empty _ _ (by simp)

/-! ### Statement-trace lemmas for the warehouse sink -/

lemma insert_redshift_ops (st : RSState) (role : Obj) (id : Val)
    (h1 : extract_id role = some id) (h2 : truthy id = true) :
    (insert_redshift_role st role).ops =
      [RSOp.insert id (jsonDumps (Val.vObj role))
        ((lookupObj role "last_update_date").getD Val.vNull)] := by
  simp [insert_redshift_role, h1, h2]

lemma update_redshift_ops (st : RSState) (role : Obj) (id : Val)
    (h1 : extract_id role = some id) (h2 : truthy id = true) :
    (update_redshift_role st role).ops =
      if rsMatchCount st id = 0 then
        [RSOp.update (jsonDumps (Val.vObj role))
          ((lookupObj role "last_update_date").getD Val.vNull) id,
         RSOp.insert id (jsonDumps (Val.vObj role))
          ((lookupObj role "last_update_date").getD Val.vNull)]
      else
        [RSOp.update (jsonDumps (Val.vObj role))
          ((lookupObj role "last_update_date").getD Val.vNull) id] := by
  by_cases hc : rsMatchCount st id = 0
  · simp [update_redshift_role, h1, h2, hc, insert_redshift_ops _ _ _ h1 h2]
  · simp [update_redshift_role, h1, h2, hc]

/-! ### Claim C1 -/

/-- C1: when an unrecovered exception escapes event processing,
`lambda_handler` does roll back both store transactions, but it does NOT
propagate the failure: it falls through to the fixed success token `'OK'`,
exactly the value returned on success — so the returned status does not
distinguish this failure from success.  This contradicts the spec's stated
intent (the failure "must propagate to the caller as a failure, not be
swallowed"), which the spec itself flags as a likely latent defect of the
code. -/
theorem c1_failure_swallowed_returns_ok :
    (lambda_handler envFailProcessing (some [sampleInsertRecord]) rsEmpty orEmpty).rsRolledBack
        = true ∧
    (lambda_handler envFailProcessing (some [sampleInsertRecord]) rsEmpty orEmpty).orRolledBack
        = true ∧
    (lambda_handler envFailProcessing (some [sampleInsertRecord]) rsEmpty orEmpty).ret
        = some "OK" ∧
    (lambda_handler envHealthy (some [sampleInsertRecord]) rsEmpty orEmpty).ret
        = some "OK" := by
  decide

/-! ### Claim C2 -/

/-- C2 counterexample: an event of kind `insert` whose document yields a
canonical id makes the warehouse write a direct INSERT — the only statement
issued on the Redshift cursor is an INSERT, with no preceding UPDATE
attempt — refuting the claim that for insert kinds an UPDATE-by-id is
attempted first and an INSERT is issued only when that UPDATE affected zero
rows. -/
theorem c2_counterexample_direct_insert :
    idTruthy (extract_id (recFullDoc sampleInsertRecord)) = true ∧
    (process_event sampleInsertRecord rsEmpty orEmpty).rsOps.map isInsertOp = [true] := by
  decide

/-- C2 amended: for events of kind `update` or `replace` whose document
yields a truthy canonical id, the warehouse write is upsert-with-fallback —
an UPDATE by id is attempted first and an INSERT of
`(id, serialized data, last_update_date)` is issued if and only if that
UPDATE matched zero rows, with no prior existence check.  For events of
kind `insert`, however, the code issues a direct INSERT with no preceding
UPDATE attempt. -/
theorem c2_amended_upsert_with_fallback (rs : RSState) (ora : OrState) (record : Obj)
    (id : Val) :
    ((recOpType record = Val.vStr "update" ∨ recOpType record = Val.vStr "replace") →
      extract_id (recFullDoc record) = some id → truthy id = true →
      (process_event record rs ora).rsOps =
        if rsMatchCount rs id = 0 then
          [RSOp.update (docData record) (docLud record) id,
           RSOp.insert id (docData record) (docLud record)]
        else
          [RSOp.update (docData record) (docLud record) id]) ∧
    (recOpType record = Val.vStr "insert" →
      extract_id (recFullDoc record) = some id → truthy id = true →
      (process_event record rs ora).rsOps =
        [RSOp.insert id (docData record) (docLud record)]) := by
  constructor
  · intro hop h1 h2
    have hne : isStrVal (recOpType record) "insert" = false := by
      rcases hop with hu | hr
      · rw [hu]; rfl
      · rw [hr]; rfl
    have hur : (isStrVal (recOpType record) "update"
        || isStrVal (recOpType record) "replace") = true := by
      rcases hop with hu | hr
      · rw [hu]; rfl
      · rw [hr]; rfl
    unfold process_event
    simp only [hne, Bool.false_eq_true, if_false, hur, if_true]
    simpa [docData, docLud] using update_redshift_ops rs (recFullDoc record) id h1 h2
  · intro hop h1 h2
    have hin : isStrVal (recOpType record) "insert" = true := by rw [hop]; rfl
    unfold process_event
    simp only [hin, if_true]
    simpa [docData, docLud] using insert_redshift_ops rs (recFullDoc record) id h1 h2

/-- C2 witness: the amended theorem applied to a concrete update event on
an empty warehouse (UPDATE matches zero rows, so the INSERT fallback is
issued after the UPDATE attempt). -/
theorem c2_amended_witness :
    (process_event sampleUpdateRecord rsEmpty orEmpty).rsOps =
      if rsMatchCount rsEmpty (Val.vStr "X") = 0 then
        [RSOp.update (docData sampleUpdateRecord) (docLud sampleUpdateRecord) (Val.vStr "X"),
         RSOp.insert (Val.vStr "X") (docData sampleUpdateRecord) (docLud sampleUpdateRecord)]
      else
        [RSOp.update (docData sampleUpdateRecord) (docLud sampleUpdateRecord) (Val.vStr "X")] :=
  (c2_amended_upsert_with_fallback rsEmpty orEmpty sampleUpdateRecord (Val.vStr "X")).1
    (Or.inl rfl) rfl rfl

/-! ### Claim C3 -/

/-- C3: with a truthy `role_id`, `update_oracle_role` with the `delete`
kind issues exactly one hard DELETE by role identifier (never a MERGE),
regardless of `is_deleted`; and with a truthy `is_deleted` and any of the
kinds insert/update/replace it likewise issues exactly one hard DELETE. -/
theorem c3_delete_never_upserts (st : OrState) (role : Obj) (op : String)
    (hrid : truthy ((lookupObj role "role_id").getD Val.vNull) = true) :
    (update_oracle_role st role "delete").ops =
      [OrOp.delete ((lookupObj role "role_id").getD Val.vNull)] ∧
    ((op = "insert" ∨ op = "update" ∨ op = "replace") →
      truthy ((lookupObj role "is_deleted").getD (Val.vBool false)) = true →
      (update_oracle_role st role op).ops =
        [OrOp.delete ((lookupObj role "role_id").getD Val.vNull)]) := by
  constructor
  · simp [update_oracle_role, hrid]
  · intro hop hdel
    rcases hop with h | h | h <;> subst h <;> simp [update_oracle_role, hrid, hdel]

/-- C3 witness: a soft-deleted document under the `update` kind, and the
`delete` kind itself, both produce exactly the hard DELETE statement. -/
theorem c3_delete_never_upserts_witness :
    (update_oracle_role orEmpty [("role_id", Val.vStr "admin"),
        ("is_deleted", Val.vBool true)] "delete").ops =
      [OrOp.delete ((lookupObj [("role_id", Val.vStr "admin"),
        ("is_deleted", Val.vBool true)] "role_id").getD Val.vNull)] ∧
    (update_oracle_role orEmpty [("role_id", Val.vStr "admin"),
        ("is_deleted", Val.vBool true)] "update").ops =
      [OrOp.delete ((lookupObj [("role_id", Val.vStr "admin"),
        ("is_deleted", Val.vBool true)] "role_id").getD Val.vNull)] := by
  have h := c3_delete_never_upserts orEmpty
    [("role_id", Val.vStr "admin"), ("is_deleted", Val.vBool true)] "update" rfl
  exact ⟨h.1, h.2 (Or.inr (Or.inl rfl)) rfl⟩

/-! ### Claim C4 -/

/-- C4 counterexample: the integer identifier `0` is present and is neither
missing, null, nor the empty string, so the claim requires `extract` to
return its string representation `"0"`; the code instead treats every falsy
identifier as absent and returns `None`. -/
theorem c4_counterexample_falsy_int_id :
    extract_id [("_id", Val.vInt 0)] = none := rfl

/-- C4 amended: for a wrapped-object identifier the inner `$oid` value is
returned as-is; for any other identifier that is truthy under the source
language's truth test the string representation is returned; and for an
identifier that is missing, null, or otherwise falsy (empty string, zero,
false, empty containers) the result is absent. -/
theorem c4_amended_extract_spec (doc : Obj) (fields : List (String × Val)) (v w : Val) :
    ((lookupObj doc "_id").getD Val.vNull = Val.vObj fields →
      lookupObj fields "$oid" = some v → extract_id doc = some v) ∧
    ((lookupObj doc "_id").getD Val.vNull = w → isWrapped w = false →
      truthy w = true → extract_id doc = some (Val.vStr (pyStr w))) ∧
    ((lookupObj doc "_id").getD Val.vNull = w → truthy w = false →
      extract_id doc = none) := by
  refine ⟨?_, ?_, ?_⟩
  · intro h1 h2
    unfold extract_id
    rw [h1]
    simp [h2]
  · intro h1 h2 h3
    unfold extract_id
    rw [h1]
    cases w with
    | vObj fs =>
        have hoid : lookupObj fs "$oid" = none := by
          cases hx : lookupObj fs "$oid" with
          | none => rfl
          | some u => simp [isWrapped, hx] at h2
        simp [hoid, h3]
    | vNull => simp [truthy] at h3
    | vBool b => simp [h3]
    | vInt i => simp [h3]
    | vStr s => simp [h3]
    | vArr xs => simp [h3]
  · intro h1 h2
    unfold extract_id
    rw [h1]
    cases w with
    | vObj fs =>
        have hfs : fs = [] := by
          cases fs with
          | nil => rfl
          | cons a l => simp [truthy] at h2
        subst hfs
        simp [lookupObj, truthy]
    | vNull => simp [truthy]
    | vBool b => simp [h2]
    | vInt i => simp [h2]
    | vStr s => simp [h2]
    | vArr xs => simp [h2]

/-- C4 witness: the amended characterization applied to a wrapped id, a
bare string id, and a null id. -/
theorem c4_amended_witness :
    extract_id [("_id", Val.vObj [("$oid", Val.vStr "64a7")])] = some (Val.vStr "64a7") ∧
    extract_id [("_id", Val.vStr "67890")] = some (Val.vStr (pyStr (Val.vStr "67890"))) ∧
    extract_id [("_id", Val.vNull)] = none := by
  refine ⟨?_, ?_, ?_⟩
  · exact (c4_amended_extract_spec [("_id", Val.vObj [("$oid", Val.vStr "64a7")])]
      [("$oid", Val.vStr "64a7")] (Val.vStr "64a7") Val.vNull).1 rfl rfl
  · exact (c4_amended_extract_spec [("_id", Val.vStr "67890")] [] Val.vNull
      (Val.vStr "67890")).2.1 rfl rfl rfl
  · exact (c4_amended_extract_spec [("_id", Val.vNull)] [] Val.vNull Val.vNull).2.2 rfl rfl

/-! ### Claim C5 -/

/-- C5 counterexample: an event whose document has no canonical `_id` (so
the warehouse identifier is missing) but does carry a truthy `role_id`
still mutates the config store — a MERGE statement is issued and a row
appears — refuting "those events cause no store mutation". -/
theorem c5_counterexample_partial_mutation :
    idTruthy (extract_id (recFullDoc missingIdRecord)) = false ∧
    (process_event missingIdRecord rsEmpty orEmpty).orOps.length = 1 ∧
    (process_event missingIdRecord rsEmpty orEmpty).ora.rows.length = 1 := by
  decide

/-- C5 amended: an event on which every routed sink lacks its identifier
(or whose kind is unrecognized) mutates neither store, issues no statement,
and only logs a warning; a sink whose identifier is missing always skips
with a warning, but an event missing only one store's identifier still
mutates the other store.  In a healthy environment the batch always
commits both stores, returns `'OK'`, and its final states are exactly
those of the batch with the fully-skipped events removed (every well-formed
event is applied). -/
theorem c5_amended_skip_and_continue (env : Env) (evs : List Obj) (rs0 : RSState)
    (or0 : OrState) (record : Obj) :
    (badEvent record = true →
      (process_event record rs0 or0).rs = rs0 ∧
      (process_event record rs0 or0).ora = or0 ∧
      (process_event record rs0 or0).rsOps = [] ∧
      (process_event record rs0 or0).orOps = [] ∧
      (process_event record rs0 or0).log ≠ []) ∧
    (healthyEnv env →
      (lambda_handler env (some evs) rs0 or0).ret = some "OK" ∧
      (lambda_handler env (some evs) rs0 or0).rsCommitted = true ∧
      (lambda_handler env (some evs) rs0 or0).orCommitted = true ∧
      (lambda_handler env (some evs) rs0 or0).rsFinal =
        (runEvents (evs.filter (fun e => !badEvent e)) rs0 or0).rs ∧
      (lambda_handler env (some evs) rs0 or0).orFinal =
        (runEvents (evs.filter (fun e => !badEvent e)) rs0 or0).ora) := by
  constructor
  · intro h
    exact badEvent_step record rs0 or0 h
  · intro hh
    obtain ⟨h1, h2, h3, h4, h5, h6, h7⟩ := hh
    have hfb := runEvents_filter_bad evs rs0 or0
    simp [lambda_handler, h1, h2, h3, h4, h5, h6, h7, List.take_length, hfb.1, hfb.2]

/-- C5 witness: a batch of one unrecognized-kind event and one well-formed
insert event, in a healthy environment. -/
theorem c5_amended_witness :
    ((process_event unsupportedRecord rsEmpty orEmpty).rs = rsEmpty ∧
     (process_event unsupportedRecord rsEmpty orEmpty).ora = orEmpty ∧
     (process_event unsupportedRecord rsEmpty orEmpty).rsOps = [] ∧
     (process_event unsupportedRecord rsEmpty orEmpty).orOps = [] ∧
     (process_event unsupportedRecord rsEmpty orEmpty).log ≠ []) ∧
    ((lambda_handler envHealthy (some [unsupportedRecord, sampleInsertRecord])
        rsEmpty orEmpty).ret = some "OK" ∧
     (lambda_handler envHealthy (some [unsupportedRecord, sampleInsertRecord])
        rsEmpty orEmpty).rsCommitted = true ∧
     (lambda_handler envHealthy (some [unsupportedRecord, sampleInsertRecord])
        rsEmpty orEmpty).orCommitted = true ∧
     (lambda_handler envHealthy (some [unsupportedRecord, sampleInsertRecord])
        rsEmpty orEmpty).rsFinal =
       (runEvents ([unsupportedRecord, sampleInsertRecord].filter (fun e => !badEvent e))
         rsEmpty orEmpty).rs ∧
     (lambda_handler envHealthy (some [unsupportedRecord, sampleInsertRecord])
        rsEmpty orEmpty).orFinal =
       (runEvents ([unsupportedRecord, sampleInsertRecord].filter (fun e => !badEvent e))
         rsEmpty orEmpty).ora) := by
  have h := c5_amended_skip_and_continue envHealthy [unsupportedRecord, sampleInsertRecord]
    rsEmpty orEmpty unsupportedRecord
  exact ⟨h.1 rfl, h.2 ⟨rfl, rfl, rfl, rfl, rfl, rfl, rfl⟩⟩

/-! ### Claim C6 -/

lemma update_oracle_delete (st : OrState) (role : Obj) (rid : Val)
    (h1 : (lookupObj role "role_id").getD Val.vNull = rid) (h2 : truthy rid = true) :
    update_oracle_role st role "delete" =
      ⟨⟨st.rows.filter (fun r => !valBeq r.roleId rid)⟩, [OrOp.delete rid],
        ["Oracle role " ++ pyStr rid ++ " deleted."]⟩ := by
  simp [update_oracle_role, h1, h2]

/-- C6: a delete event leaves the warehouse untouched — no statement is
issued on the Redshift cursor and its state is unchanged — and, when the
documentKey carries a truthy role identifier, the only statement issued is
the config-store hard DELETE keyed by that identifier, which removes the
matching rows. -/
theorem c6_delete_frame (rs : RSState) (ora : OrState) (record : Obj) (rid : Val) :
    (recOpType record = Val.vStr "delete" →
      (process_event record rs ora).rs = rs ∧ (process_event record rs ora).rsOps = []) ∧
    (recOpType record = Val.vStr "delete" →
      (lookupObj (recDocKey record) "role_id").getD Val.vNull = rid →
      truthy rid = true →
      (process_event record rs ora).orOps = [OrOp.delete rid] ∧
      (process_event record rs ora).ora =
        ⟨ora.rows.filter (fun r => !valBeq r.roleId rid)⟩) := by
  constructor
  · intro hop
    unfold process_event
    rw [hop]
    simp [isStrVal]
  · intro hop h1 h2
    unfold process_event
    rw [hop]
    simp [isStrVal, update_oracle_delete ora (recDocKey record) rid h1 h2]

/-- C6 witness: a concrete delete event over a config store holding one
matching row. -/
theorem c6_delete_frame_witness :
    ((process_event sampleDeleteRecord rsEmpty orAdminOnly).rs = rsEmpty ∧
     (process_event sampleDeleteRecord rsEmpty orAdminOnly).rsOps = []) ∧
    ((process_event sampleDeleteRecord rsEmpty orAdminOnly).orOps =
        [OrOp.delete (Val.vStr "admin")] ∧
     (process_event sampleDeleteRecord rsEmpty orAdminOnly).ora =
        ⟨orAdminOnly.rows.filter (fun r => !valBeq r.roleId (Val.vStr "admin"))⟩) := by
  have h := c6_delete_frame rsEmpty orAdminOnly sampleDeleteRecord (Val.vStr "admin")
  exact ⟨h.1 rfl, h.2 rfl rfl rfl⟩

/-! ### Claim C7 -/

/-- C7: every MERGE statement issued by the config-store sink binds both
attribution parameters — `creator_id` (written to `MODIFIEDBY` on insert)
and `last_updater_id` (written to `MODIFIEDBY` on update) — to the fixed
constant identity string of this integration, independently of every field
of the source document. -/
theorem c7_fixed_attribution (st : OrState) (role : Obj) (op : String) (p : MergeParams)
    (h : OrOp.merge p ∈ (update_oracle_role st role op).ops) :
    p.creator_id = Val.vStr "americold_compass" ∧
    p.last_updater_id = Val.vStr "americold_compass" := by
  simp only [update_oracle_role] at h
  by_cases h1 : truthy ((lookupObj role "role_id").getD Val.vNull) = true
  · simp only [h1, if_true] at h
    by_cases h2 : ((op == "insert" || op == "update" || op == "replace")
        && !truthy ((lookupObj role "is_deleted").getD (Val.vBool false))) = true
    · simp only [h2, if_true, List.mem_singleton] at h
      have hp : p = mergeParamsOf role := by
        injection h
      subst hp
      exact ⟨rfl, rfl⟩
    · have h2f := Bool.eq_false_iff.mpr h2
      simp only [h2f, Bool.false_eq_true, if_false] at h
      by_cases h3 : ((op == "delete")
          || truthy ((lookupObj role "is_deleted").getD (Val.vBool false))) = true
      · simp only [h3, if_true, List.mem_singleton] at h
        exact absurd h (by simp)
      · have h3f := Bool.eq_false_iff.mpr h3
        simp only [h3f, Bool.false_eq_true, if_false] at h
        exact absurd h (by simp)
  · have h1f := Bool.eq_false_iff.mpr h1
    simp only [h1f, Bool.false_eq_true, if_false] at h
    exact absurd h (by simp)

def roleAdmin : Obj := [("role_id", Val.vStr "admin"), ("role_name", Val.vStr "Administrator")]

/-- C7 witness: the MERGE parameters of a concrete upserted document carry
the constant attribution identity. -/
theorem c7_fixed_attribution_witness :
    (mergeParamsOf roleAdmin).creator_id = Val.vStr "americold_compass" ∧
    (mergeParamsOf roleAdmin).last_updater_id = Val.vStr "americold_compass" :=
  c7_fixed_attribution orEmpty roleAdmin "insert" (mergeParamsOf roleAdmin)
    (by simp [update_oracle_role, roleAdmin, truthy, lookupObj])

/-! ### Claim C8 -/

/-- C8 counterexample: a document whose wrapped identifier holds an empty
`$oid` makes extraction succeed while returning the empty string, refuting
the invariant that a successfully extracted canonical id is never empty. -/
theorem c8_counterexample_empty_wrapped_oid :
    extract_id [("_id", Val.vObj [("$oid", Val.vStr "")])] = some (Val.vStr "") := rfl

lemma bare_branch_extract (x v : Val)
    (h : (if truthy x = true then some (Val.vStr (pyStr x)) else none) = some v) :
    ∃ s, v = Val.vStr s ∧ s ≠ "" := by
  by_cases ht : truthy x = true
  · rw [if_pos ht] at h
    exact ⟨pyStr x, (Option.some.inj h).symm, pyStr_ne_empty x ht⟩
  · rw [if_neg ht] at h
    exact absurd h (by simp)

/-- C8 amended: whenever the identifier field is not the wrapped-object
form, a successful extraction returns a non-empty string; the wrapped form
instead returns the inner `$oid` value unchanged, which may be empty (or
not a string at all). -/
theorem c8_amended_nonempty_when_unwrapped (doc : Obj) (v : Val)
    (h : extract_id doc = some v)
    (hw : isWrapped ((lookupObj doc "_id").getD Val.vNull) = false) :
    ∃ s, v = Val.vStr s ∧ s ≠ "" := by
  unfold extract_id at h
  cases hr : (lookupObj doc "_id").getD Val.vNull with
  | vObj fs =>
      rw [hr] at h hw
      have hoid : lookupObj fs "$oid" = none := by
        cases hx : lookupObj fs "$oid" with
        | none => rfl
        | some u => simp [isWrapped, hx] at hw
      simp only [hoid] at h
      exact bare_branch_extract (Val.vObj fs) v h
  | vNull =>
      rw [hr] at h
      exact bare_branch_extract Val.vNull v h
  | vBool b =>
      rw [hr] at h
      exact bare_branch_extract (Val.vBool b) v h
  | vInt i =>
      rw [hr] at h
      exact bare_branch_extract (Val.vInt i) v h
  | vStr s =>
      rw [hr] at h
      exact bare_branch_extract (Val.vStr s) v h
  | vArr xs =>
      rw [hr] at h
      exact bare_branch_extract (Val.vArr xs) v h

/-- C8 witness: extraction of a bare string id yields that (non-empty)
string. -/
theorem c8_amended_witness : ∃ s, Val.vStr "67890" = Val.vStr s ∧ s ≠ "" :=
  c8_amended_nonempty_when_unwrapped [("_id", Val.vStr "67890")] (Val.vStr "67890") rfl rfl

/-! ### Claim C9 -/

/-- C9 counterexample: when the Oracle `connect` call raises, the already
opened Redshift connection and cursor are never closed (the try/finally
starts only after both connections are open), and the exception propagates
— refuting "on every exit path both store connections/cursors that were
opened are closed". -/
theorem c9_counterexample_leaked_redshift_connection :
    (lambda_handler envOracleConnectFails (some []) rsEmpty orEmpty).rsConnOpened = true ∧
    (lambda_handler envOracleConnectFails (some []) rsEmpty orEmpty).rsConnClosed = false ∧
    (lambda_handler envOracleConnectFails (some []) rsEmpty orEmpty).rsCursorClosed = false ∧
    (lambda_handler envOracleConnectFails (some []) rsEmpty orEmpty).ret = none := by
  decide

/-- C9 amended: once both connections have been opened successfully, every
exit path — successful commit, handled rollback after a processing failure,
or a commit failure — closes both cursors and both connections, exactly
once each (the `finally` block runs one close per resource); but a failure
while acquiring the Oracle credentials or opening the Oracle connection
exits with the already-opened Redshift connection and cursor unclosed. -/
theorem c9_amended_close_once_both_connected (env : Env) (events : Option (List Obj))
    (rs0 : RSState) (or0 : OrState)
    (h1 : env.rsSecretOk = true) (h2 : env.rsConnectOk = true)
    (h3 : env.orSecretOk = true) (h4 : env.orConnectOk = true) :
    (lambda_handler env events rs0 or0).rsCursorClosed = true ∧
    (lambda_handler env events rs0 or0).rsConnClosed = true ∧
    (lambda_handler env events rs0 or0).orCursorClosed = true ∧
    (lambda_handler env events rs0 or0).orConnClosed = true := by
  unfold lambda_handler
  simp only [h1, h2, h3, h4, Bool.not_true, Bool.false_eq_true, if_false]
  rcases hf : env.failAfter with _ | k
  · cases hrc : env.rsCommitOk <;> cases hoc : env.orCommitOk <;> simp [hf, hrc, hoc]
  · simp [hf]

/-- C9 witness: with both connections open and a failure escaping the
processing loop, all four resources are still closed. -/
theorem c9_amended_witness :
    (lambda_handler envFailProcessing (some []) rsEmpty orEmpty).rsCursorClosed = true ∧
    (lambda_handler envFailProcessing (some []) rsEmpty orEmpty).rsConnClosed = true ∧
    (lambda_handler envFailProcessing (some []) rsEmpty orEmpty).orCursorClosed = true ∧
    (lambda_handler envFailProcessing (some []) rsEmpty orEmpty).orConnClosed = true :=
  c9_amended_close_once_both_connected envFailProcessing (some []) rsEmpty orEmpty
    rfl rfl rfl rfl

/-! ### Claim C10 -/

/-- C10: an invocation whose batch object lacks the `'events'` key, or
carries an empty event list, issues no statement on either cursor, leaves
both tables unchanged, still invokes and completes both commits, and
returns the fixed success token `'OK'`. -/
theorem c10_empty_batch_commits_ok (env : Env) (rs0 : RSState) (or0 : OrState)
    (h : healthyEnv env) :
    ((lambda_handler env none rs0 or0).rsOps = [] ∧
     (lambda_handler env none rs0 or0).orOps = [] ∧
     (lambda_handler env none rs0 or0).rsCommitted = true ∧
     (lambda_handler env none rs0 or0).orCommitted = true ∧
     (lambda_handler env none rs0 or0).ret = some "OK" ∧
     (lambda_handler env none rs0 or0).rsFinal = rs0 ∧
     (lambda_handler env none rs0 or0).orFinal = or0) ∧
    ((lambda_handler env (some []) rs0 or0).rsOps = [] ∧
     (lambda_handler env (some []) rs0 or0).orOps = [] ∧
     (lambda_handler env (some []) rs0 or0).rsCommitted = true ∧
     (lambda_handler env (some []) rs0 or0).orCommitted = true ∧
     (lambda_handler env (some []) rs0 or0).ret = some "OK" ∧
     (lambda_handler env (some []) rs0 or0).rsFinal = rs0 ∧
     (lambda_handler env (some []) rs0 or0).orFinal = or0) := by
  obtain ⟨h1, h2, h3, h4, h5, h6, h7⟩ := h
  constructor <;> simp [lambda_handler, h1, h2, h3, h4, h5, h6, h7, runEvents]

/-- C10 witness: the healthy environment with empty stores, on both the
missing-key and empty-list inputs. -/
theorem c10_empty_batch_witness :
    ((lambda_handler envHealthy none rsEmpty orEmpty).rsOps = [] ∧
     (lambda_handler envHealthy none rsEmpty orEmpty).orOps = [] ∧
     (lambda_handler envHealthy none rsEmpty orEmpty).rsCommitted = true ∧
     (lambda_handler envHealthy none rsEmpty orEmpty).orCommitted = true ∧
     (lambda_handler envHealthy none rsEmpty orEmpty).ret = some "OK" ∧
     (lambda_handler envHealthy none rsEmpty orEmpty).rsFinal = rsEmpty ∧
     (lambda_handler envHealthy none rsEmpty orEmpty).orFinal = orEmpty) ∧
    ((lambda_handler envHealthy (some []) rsEmpty orEmpty).rsOps = [] ∧
     (lambda_handler envHealthy (some []) rsEmpty orEmpty).orOps = [] ∧
     (lambda_handler envHealthy (some []) rsEmpty orEmpty).rsCommitted = true ∧
     (lambda_handler envHealthy (some []) rsEmpty orEmpty).orCommitted = true ∧
     (lambda_handler envHealthy (some []) rsEmpty orEmpty).ret = some "OK" ∧
     (lambda_handler envHealthy (some []) rsEmpty orEmpty).rsFinal = rsEmpty ∧
     (lambda_handler envHealthy (some []) rsEmpty orEmpty).orFinal = orEmpty) :=
  c10_empty_batch_commits_ok envHealthy rsEmpty orEmpty
    ⟨rfl, rfl, rfl, rfl, rfl, rfl, rfl⟩

end RolesLambda
